import Mathlib

/-!
Shallow embedding of `pyramid/scripting.py` (the scripting-bootstrap module).

The module's own code (`get_root`, `prepare`, `AppEnvironment`,
`_make_request`) is translated line by line.  Its collaborators live outside
the excerpt (pyramid.threadlocal.RequestContext, pyramid.request.Request and
`apply_request_extensions`, pyramid.traversal.DefaultRootFactory, the zope
component registry's `queryUtility`); those are modelled from the spec, each
with a doc comment saying so.

Python objects with optional attributes are modelled as structures whose
attribute slots have type `Option (Option _)`: the outer `Option` is
attribute presence (`none` = no such attribute, so `getattr` falls back to
its default), the inner one is the Python value (`none` = the value `None`).
`getattr(obj, 'a', d)` is then `obj.a.getD d`.

The thread-local state is an explicit `World`: the stack of current
request/registry frames plus a trace of observable teardown events, so that
ordering claims ("run callbacks, then pop") are statable.
-/

/-- Root resources.  A root is produced by a root factory applied to a
request; `preexisting` models an arbitrary value a caller stored in a
request's `context` attribute before calling `prepare`. -/
inductive Root
  | defaultRoot (reqTag : Nat)
  | customRoot (f : Nat) (reqTag : Nat)
  | preexisting (n : Nat)
deriving DecidableEq, BEq

/-- Root factories registered (or defaulted) in a registry.
`DefaultRootFactory` is modelled from the spec: the framework's default
root factory (`pyramid.traversal.DefaultRootFactory`), used when the
registry has no `IRootFactory` utility. -/
inductive RootFactory
  | DefaultRootFactory
  | custom (f : Nat)
deriving DecidableEq, BEq

/-- Request factories.  The `Request` constructor models the framework's
`pyramid.request.Request` class itself, the default when the registry has no
`IRequestFactory` utility. -/
inductive RequestFactory
  | Request
  | custom (n : Nat)
deriving DecidableEq, BEq

/-- The component registry.  Modelled from the spec: "a component registry
supporting lookup of a request-factory utility and a root-factory utility
with defaults"; a slot holds the registered utility, `none` when nothing is
registered for that interface. -/
structure Registry where
  rid : Nat
  rootFactoryUtil : Option RootFactory := none
  requestFactoryUtil : Option RequestFactory := none
deriving DecidableEq, BEq

/-- Modelled from the spec: `registry.queryUtility(IRootFactory, default=d)`
returns the registered `IRootFactory` utility, or `d` when none is
registered. -/
def Registry.queryUtilityRootFactory (r : Registry) (d : RootFactory) : RootFactory :=
  r.rootFactoryUtil.getD d

/-- Modelled from the spec: `registry.queryUtility(IRequestFactory, default=d)`
returns the registered `IRequestFactory` utility, or `d` when none is
registered. -/
def Registry.queryUtilityRequestFactory (r : Registry) (d : RequestFactory) : RequestFactory :=
  r.requestFactoryUtil.getD d

/-- A request object.  `registry` and `context` are optional attributes
(see the file comment for the `Option (Option _)` encoding);
`finished_callbacks` is the list of registered finished-callbacks (a Python
list, truthy iff nonempty); `extensionsApplied` records that
`apply_request_extensions` ran; `madeBy` records, for requests built by a
factory's `blank` method, which factory and path built them (`none` for
caller-supplied requests); `tag` is the object identity root factories
depend on. -/
structure Request where
  tag : Nat := 0
  registry : Option (Option Registry) := none
  context : Option (Option Root) := none
  finished_callbacks : List Nat := []
  extensionsApplied : Bool := false
  madeBy : Option (RequestFactory × String) := none
deriving DecidableEq, BEq

/-- Modelled from the spec: "a request type constructible from a blank
path" — `request_factory.blank(path)` builds a fresh request anchored at
`path`, with no registry or context attribute yet.  (Top level rather than
in the `RequestFactory` namespace, where the constructor named `Request`
would shadow the `Request` type.) -/
def requestFactoryBlank (f : RequestFactory) (path : String) : Request :=
  { tag := match f with | .Request => 0 | .custom n => n + 1
    madeBy := some (f, path) }

/-- Applying a root factory to a request yields the root resource; the
result depends on the factory and on the request's identity. -/
def applyRootFactory : RootFactory → Request → Root
  | .DefaultRootFactory, req => .defaultRoot req.tag
  | .custom f, req => .customRoot f req.tag

/-- `pyramid.config.global_registries`: process-wide state whose `last`
attribute is the last registry loaded, or `None` when no application has
been loaded.  Passed explicitly to the embedded functions. -/
structure GlobalRegistries where
  last : Option Registry := none
deriving DecidableEq, BEq

/-- One frame of the thread-local context stack: the "current"
request/registry pair pushed by `RequestContext.begin`. -/
structure Frame where
  request : Request
  registry : Option Registry
deriving DecidableEq, BEq

/-- Observable teardown events, used to state ordering properties of the
closer. -/
inductive Event
  | ranFinishedCallbacks
  | popped
deriving DecidableEq, BEq

/-- The explicit thread-local state: the context stack and the trace of
teardown events so far. -/
structure World where
  stack : List Frame := []
  trace : List Event := []
deriving DecidableEq, BEq

/-- Modelled from the spec: `RequestContext(request).begin()` pushes the
request/registry pair onto the thread-local stack ("pushed on entry"). -/
def requestContextBegin (request : Request) (w : World) : World :=
  { w with stack := { request := request, registry := request.registry.getD none } :: w.stack }

/-- Modelled from the spec: `ctx.end()` pops the top frame of the
thread-local stack ("popped on exit"); `none` models the failure when there
is no frame to pop. -/
def requestContextEnd (w : World) : Option World :=
  match w.stack with
  | [] => none
  | _ :: rest => some { stack := rest, trace := w.trace ++ [Event.popped] }

/-- Modelled from the spec: `apply_request_extensions(request)` applies the
registered request extensions to the request. -/
def apply_request_extensions (req : Request) : Request :=
  { req with extensionsApplied := true }

/-- Modelled from the spec: `request._process_finished_callbacks()` runs the
registered finished-callbacks; recorded as a trace event. -/
def processFinishedCallbacks (w : World) : World :=
  { w with trace := w.trace ++ [Event.ranFinishedCallbacks] }

/-- The configuration error raised by `prepare` ("No valid Pyramid
applications could be found, make sure one has been created before trying
to activate it."). -/
inductive ConfigurationError
  | noValidApps
deriving DecidableEq, BEq

/-- `_make_request(path, registry)` in the case where the registry argument
is not `None` — the only case `prepare` and `get_root` exercise, since both
call it with an already resolved registry.  Looks up the request factory
(defaulting to `Request`), builds `request_factory.blank(path)` and sets
`request.registry = registry`. -/
def _make_request_resolved (path : String) (registry : Registry) : Request :=
  let request_factory := registry.queryUtilityRequestFactory RequestFactory.Request
  let request := requestFactoryBlank request_factory path
  { request with registry := some (some registry) }

/-- `_make_request(path, registry=None)`: falls back to
`global_registries.last` when no registry is given; `none` models the
`AttributeError` Python would raise looking up `queryUtility` on `None`. -/
def _make_request (path : String) (registry : Option Registry)
    (g : GlobalRegistries) : Option Request :=
  match (match registry with | none => g.last | some r => some r) with
  | none => none
  | some r => some (_make_request_resolved path r)

/-- Lines 78-79 of `prepare`: `if registry is None: registry =
getattr(request, 'registry', global_registries.last)`.  Note
`getattr(None, 'registry', d)` is `d` (the `None` object has no `registry`
attribute), and `getattr(request, 'registry', d)` returns the attribute's
value even when that value is `None`. -/
def resolveRegistry (g : GlobalRegistries) (request : Option Request)
    (registry : Option Registry) : Option Registry :=
  match registry with
  | some r => some r
  | none =>
    match request with
    | some req => req.registry.getD g.last
    | none => g.last

/-- The `closer` closure defined inside `prepare`: `if
request.finished_callbacks: request._process_finished_callbacks()` followed
by `ctx.end()`.  It captures the request object. -/
def prepareCloser (request : Request) (w : World) : Option World :=
  let w := if request.finished_callbacks = [] then w else processFinishedCallbacks w
  requestContextEnd w

/-- The bundle `prepare` returns: a dict with keys `root`, `closer`,
`registry`, `request`, `root_factory`, usable as a context manager. -/
structure AppEnvironment where
  root : Root
  closer : World → Option World
  registry : Registry
  request : Request
  root_factory : RootFactory

/-- `AppEnvironment.__enter__`: `return self`. -/
def AppEnvironment.enter (e : AppEnvironment) : AppEnvironment := e

/-- `AppEnvironment.__exit__`: `self['closer']()` (the exception-info
arguments are ignored by the source and omitted here). -/
def AppEnvironment.exit (e : AppEnvironment) (w : World) : Option World :=
  e.closer w

/-- The body of `prepare` after the registry resolved (everything past the
`raise`): build or take the request, set `request.registry`, push the
thread-local frame, apply request extensions, resolve the root factory via
`queryUtility(IRootFactory, default=DefaultRootFactory)`, compute the root,
set `request.context` to it when the `context` attribute is absent or
`None`, and return the bundle. -/
def prepareResolved (registry : Registry) (request? : Option Request)
    (w : World) : AppEnvironment × World :=
  let request := match request? with
    | none => _make_request_resolved "/" registry
    | some req => req
  let request := { request with registry := some (some registry) }
  let w := requestContextBegin request w
  let request := apply_request_extensions request
  let root_factory := registry.queryUtilityRootFactory RootFactory.DefaultRootFactory
  let root := applyRootFactory root_factory request
  let request := if request.context.getD none = none
    then { request with context := some (some root) } else request
  ({ root := root, closer := prepareCloser request, registry := registry,
     request := request, root_factory := root_factory }, w)

/-- `prepare(request=None, registry=None)`: resolve the registry (falling
back to the request's `registry` attribute and then to
`global_registries.last`), raise `ConfigurationError` when none resolves,
otherwise run the body. -/
def prepare (g : GlobalRegistries) (request? : Option Request)
    (registry? : Option Registry) (w : World) :
    Except ConfigurationError (AppEnvironment × World) :=
  match resolveRegistry g request? registry? with
  | none => Except.error ConfigurationError.noValidApps
  | some registry => Except.ok (prepareResolved registry request? w)

/-- An application object (`router`): `get_root` reads `app.registry` and
calls `app.root_factory(request)`. -/
structure App where
  registry : Registry
  root_factory : RootFactory
deriving DecidableEq, BEq

/-- `get_root(app, request=None)`: build or take the request, set
`request.registry`, push the thread-local frame, compute the root via
`app.root_factory`, and return `(root, closer)` where the closer is
`ctx.end()`. -/
def get_root (app : App) (request? : Option Request) (w : World) :
    (Root × (World → Option World)) × World :=
  let registry := app.registry
  let request := match request? with
    | none => _make_request_resolved "/" registry
    | some req => req
  let request := { request with registry := some (some registry) }
  let w := requestContextBegin request w
  let root := applyRootFactory app.root_factory request
  ((root, fun w => requestContextEnd w), w)

/-! ## Helper lemmas and concrete fixtures -/

/-- A registry with no registered utilities. -/
def regW : Registry := { rid := 1 }

/-- Global state with no application loaded. -/
def gNone : GlobalRegistries := {}

/-- Global state whose last loaded registry is `regW`. -/
def gW : GlobalRegistries := { last := some regW }

/-- A plain caller-supplied request with no registry or context attribute. -/
def reqW : Request := { tag := 5 }

/-- The empty thread-local world. -/
def wW : World := {}

/-- When the registry resolves, `prepare` returns the bundle built by
`prepareResolved`. -/
theorem prepare_eq_ok (g : GlobalRegistries) (w : World)
    (request? : Option Request) (registry? : Option Registry)
    (registry : Registry)
    (h : resolveRegistry g request? registry? = some registry) :
    prepare g request? registry? w = Except.ok (prepareResolved registry request? w) := by
  simp [prepare, h]

/-! ## Claims -/

/-- C1: a call to `prepare` with no registry argument, with either no
request or a request lacking a `registry` attribute, and with no previously
loaded application (`global_registries.last` is `None`), raises
`ConfigurationError`; no frame is pushed and no bundle returned (the error
result carries neither a world nor a bundle). -/
theorem prepare_no_registry_raises (g : GlobalRegistries) (w : World)
    (request? : Option Request) (hlast : g.last = none)
    (hreq : request? = none ∨ ∃ req, request? = some req ∧ req.registry = none) :
    prepare g request? none w = Except.error ConfigurationError.noValidApps := by
  rcases hreq with h | ⟨req, h, hr⟩
  · subst h
    simp [prepare, resolveRegistry, hlast]
  · subst h
    simp [prepare, resolveRegistry, hlast, hr]

/-- Witness for C1: concrete request with no `registry` attribute, empty
globals. -/
theorem prepare_no_registry_raises_witness :
    (gNone.last = none ∧
      ((some reqW : Option Request) = none ∨
        ∃ req, (some reqW : Option Request) = some req ∧ req.registry = none)) ∧
    prepare gNone (some reqW) none wW = Except.error ConfigurationError.noValidApps :=
  ⟨⟨rfl, Or.inr ⟨reqW, rfl, rfl⟩⟩,
   prepare_no_registry_raises gNone wW (some reqW) rfl (Or.inr ⟨reqW, rfl, rfl⟩)⟩

/-- C9: a supplied request whose `registry` attribute exists but is `None`
makes `prepare` raise `ConfigurationError` even when a previously loaded
application exists: `getattr(request, 'registry', global_registries.last)`
returns the attribute's value (`None`), so the global fallback is never
consulted. -/
theorem request_registry_none_shadows_global (g : GlobalRegistries)
    (w : World) (req : Request) (r : Registry)
    (hattr : req.registry = some none) (_hlast : g.last = some r) :
    prepare g (some req) none w = Except.error ConfigurationError.noValidApps := by
  simp [prepare, resolveRegistry, hattr]

/-- Witness for C9: request with `registry = None`, globals holding a last
loaded registry. -/
theorem request_registry_none_shadows_global_witness :
    (({ tag := 6, registry := some none : Request }).registry = some none ∧
      gW.last = some regW) ∧
    prepare gW (some { tag := 6, registry := some none }) none wW =
      Except.error ConfigurationError.noValidApps :=
  ⟨⟨rfl, rfl⟩,
   request_registry_none_shadows_global gW wW { tag := 6, registry := some none }
     regW rfl rfl⟩

/-- `applyRootFactory` depends only on the factory and the request's
identity, not on mutable attributes set later. -/
theorem applyRootFactory_tag (f : RootFactory) (r s : Request)
    (ht : r.tag = s.tag) : applyRootFactory f r = applyRootFactory f s := by
  cases f <;> simp [applyRootFactory, ht]

/-- C3: when a request is supplied and the registry resolves, after
`prepare` the supplied request's `registry` attribute equals the resolved
registry, regardless of its prior value. -/
theorem prepare_sets_request_registry (g : GlobalRegistries) (w : World)
    (req : Request) (registry? : Option Registry) (registry : Registry)
    (h : resolveRegistry g (some req) registry? = some registry) :
    ∃ env w2, prepare g (some req) registry? w = Except.ok (env, w2) ∧
      env.registry = registry ∧ env.request.registry = some (some registry) := by
  refine ⟨_, _, prepare_eq_ok g w (some req) registry? registry h, ?_, ?_⟩
  · simp [prepareResolved]
  · simp only [prepareResolved, apply_request_extensions]
    split <;> simp

/-- Witness for C3: a request whose `registry` attribute held a different
registry beforehand still ends with the resolved one. -/
theorem prepare_sets_request_registry_witness :
    resolveRegistry gW (some { tag := 9, registry := some (some { rid := 42 }) })
        (some regW) = some regW ∧
    (∃ env w2,
      prepare gW (some { tag := 9, registry := some (some { rid := 42 }) })
          (some regW) wW = Except.ok (env, w2) ∧
      env.registry = regW ∧ env.request.registry = some (some regW)) :=
  ⟨by decide,
   prepare_sets_request_registry gW wW
     { tag := 9, registry := some (some { rid := 42 }) } (some regW) regW
     (by decide)⟩

/-- C10: `prepare` assigns the computed root to the request's `context`
attribute only when that attribute is absent or `None`; a supplied request
with a non-`None` context keeps it unchanged. -/
theorem prepare_context_only_if_none (g : GlobalRegistries) (w : World)
    (req : Request) (registry? : Option Registry) (registry : Registry)
    (h : resolveRegistry g (some req) registry? = some registry) :
    ∃ env w2, prepare g (some req) registry? w = Except.ok (env, w2) ∧
      (req.context.getD none = none → env.request.context = some (some env.root)) ∧
      (∀ c, req.context.getD none = some c → env.request.context = req.context) := by
  refine ⟨_, _, prepare_eq_ok g w (some req) registry? registry h, ?_, ?_⟩
  · intro hc
    simp [prepareResolved, apply_request_extensions, hc]
  · intro c hc
    simp [prepareResolved, apply_request_extensions, hc]

/-- Witness for C10 (absent-context side): the computed root lands in
`context`. -/
theorem prepare_context_only_if_none_witness :
    resolveRegistry gW (some reqW) (some regW) = some regW ∧
    (∃ env w2, prepare gW (some reqW) (some regW) wW = Except.ok (env, w2) ∧
      (reqW.context.getD none = none → env.request.context = some (some env.root)) ∧
      (∀ c, reqW.context.getD none = some c → env.request.context = reqW.context)) :=
  ⟨by decide,
   prepare_context_only_if_none gW wW reqW (some regW) regW (by decide)⟩

/-- C2 counterexample: a supplied request whose `context` attribute already
holds a non-`None` value keeps it, so the request's `context` does NOT end
up equal to the computed root — refuting "the request's context attribute
ends up equal to the root" for every call with a resolvable registry. -/
theorem prepare_context_not_root_counterexample :
    ∃ env w2,
      prepare gW (some { tag := 5, context := some (some (Root.preexisting 7)) })
          (some regW) wW = Except.ok (env, w2) ∧
      env.request.context = some (some (Root.preexisting 7)) ∧
      env.request.context ≠ some (some env.root) :=
  ⟨_, _, rfl, rfl, by decide⟩

/-- C2 (amended): with a resolvable registry, `prepare` resolves the root
factory via `queryUtility(IRootFactory, default=DefaultRootFactory)`,
computes the root by applying that factory to the request, and stores the
root in the request's `context` attribute only when that attribute was
absent or `None`; otherwise the pre-existing context value is kept. -/
theorem prepare_root_factory_resolution (g : GlobalRegistries) (w : World)
    (request? : Option Request) (registry? : Option Registry)
    (registry : Registry)
    (h : resolveRegistry g request? registry? = some registry) :
    ∃ env w2, prepare g request? registry? w = Except.ok (env, w2) ∧
      env.root_factory = registry.queryUtilityRootFactory RootFactory.DefaultRootFactory ∧
      env.root = applyRootFactory env.root_factory env.request ∧
      env.request.context.getD none =
        some ((match request? with
          | none => (none : Option Root)
          | some req => req.context.getD none).getD env.root) := by
  refine ⟨_, _, prepare_eq_ok g w request? registry? registry h, ?_, ?_, ?_⟩
  · simp [prepareResolved]
  · rcases request? with _ | req <;>
      simp only [prepareResolved, apply_request_extensions] <;>
      split <;>
      first
        | rfl
        | exact applyRootFactory_tag _ _ _ rfl
  · rcases request? with _ | req
    · simp [prepareResolved, apply_request_extensions, _make_request_resolved,
        requestFactoryBlank]
    · rcases hc : req.context.getD none with _ | c <;>
        simp [prepareResolved, apply_request_extensions, hc]

/-- Witness for the amended C2 at a concrete supplied request with no
context attribute. -/
theorem prepare_root_factory_resolution_witness :
    resolveRegistry gW (some reqW) none = some regW ∧
    (∃ env w2, prepare gW (some reqW) none wW = Except.ok (env, w2) ∧
      env.root_factory = regW.queryUtilityRootFactory RootFactory.DefaultRootFactory ∧
      env.root = applyRootFactory env.root_factory env.request ∧
      env.request.context.getD none =
        some ((match (some reqW : Option Request) with
          | none => (none : Option Root)
          | some req => req.context.getD none).getD env.root)) :=
  ⟨by decide,
   prepare_root_factory_resolution gW wW (some reqW) none regW (by decide)⟩

/-- Number of pop events in a trace. -/
def countPops : List Event → Nat
  | [] => 0
  | Event.popped :: es => countPops es + 1
  | _ :: es => countPops es

/-- `countPops` is additive over append. -/
theorem countPops_append (l1 l2 : List Event) :
    countPops (l1 ++ l2) = countPops l1 + countPops l2 := by
  induction l1 with
  | nil => simp [countPops]
  | cons e es ih =>
    cases e
    · simp [countPops, ih]
    · simp [countPops, ih]
      omega

/-- C5: with a resolvable registry, the bundle's closer can be invoked once
on the post-`prepare` world without error: the frame `prepare` pushed is
there to pop. -/
theorem prepare_closer_succeeds (g : GlobalRegistries) (w : World)
    (request? : Option Request) (registry? : Option Registry)
    (registry : Registry)
    (h : resolveRegistry g request? registry? = some registry) :
    ∃ env w2, prepare g request? registry? w = Except.ok (env, w2) ∧
      ∃ w3, env.closer w2 = some w3 := by
  refine ⟨_, _, prepare_eq_ok g w request? registry? registry h, ?_⟩
  rcases request? with _ | req <;>
    simp only [prepareResolved, prepareCloser, apply_request_extensions] <;>
    split <;> split <;>
    simp [requestContextEnd, requestContextBegin, processFinishedCallbacks]

/-- Witness for C5: a request with one finished-callback registered. -/
theorem prepare_closer_succeeds_witness :
    resolveRegistry gW (some { tag := 5, finished_callbacks := [3] })
        (some regW) = some regW ∧
    (∃ env w2,
      prepare gW (some { tag := 5, finished_callbacks := [3] }) (some regW) wW =
        Except.ok (env, w2) ∧ ∃ w3, env.closer w2 = some w3) :=
  ⟨by decide,
   prepare_closer_succeeds gW wW (some { tag := 5, finished_callbacks := [3] })
     (some regW) regW (by decide)⟩

/-- C6: invoking the closer first runs the registered finished-callbacks
(and only when some are registered) and then pops the frame `prepare`
pushed, in that order: the resulting trace appends the callback event (when
any callbacks exist) before the pop event, and the stack returns to its
pre-`prepare` value. -/
theorem closer_runs_callbacks_then_pops (g : GlobalRegistries) (w : World)
    (request? : Option Request) (registry? : Option Registry)
    (registry : Registry)
    (h : resolveRegistry g request? registry? = some registry) :
    ∃ env w2, prepare g request? registry? w = Except.ok (env, w2) ∧
      env.closer w2 = some
        { stack := w.stack,
          trace := w2.trace ++
            (if env.request.finished_callbacks = [] then ([] : List Event)
              else [Event.ranFinishedCallbacks]) ++ [Event.popped] } := by
  refine ⟨_, _, prepare_eq_ok g w request? registry? registry h, ?_⟩
  rcases request? with _ | req <;>
    simp only [prepareResolved, prepareCloser, apply_request_extensions] <;>
    split <;> split <;>
    simp [requestContextEnd, requestContextBegin, processFinishedCallbacks]

/-- Witness for C6: one registered callback, nonempty prior stack. -/
theorem closer_runs_callbacks_then_pops_witness :
    resolveRegistry gW (some { tag := 5, finished_callbacks := [3] })
        (some regW) = some regW ∧
    (∃ env w2,
      prepare gW (some { tag := 5, finished_callbacks := [3] }) (some regW) wW =
        Except.ok (env, w2) ∧
      env.closer w2 = some
        { stack := wW.stack,
          trace := w2.trace ++
            (if env.request.finished_callbacks = [] then ([] : List Event)
              else [Event.ranFinishedCallbacks]) ++ [Event.popped] }) :=
  ⟨by decide,
   closer_runs_callbacks_then_pops gW wW
     (some { tag := 5, finished_callbacks := [3] }) (some regW) regW
     (by decide)⟩

/-- C4: the bundle works as a scoped resource: entering the context manager
yields the bundle itself, and exiting invokes the bundle's closer exactly
once — `__exit__` is a single closer call, and on the post-`prepare` world
that call appends exactly one pop event to the trace. -/
theorem appEnvironment_scoped_resource (g : GlobalRegistries) (w : World)
    (request? : Option Request) (registry? : Option Registry)
    (registry : Registry)
    (h : resolveRegistry g request? registry? = some registry) :
    ∃ env w2, prepare g request? registry? w = Except.ok (env, w2) ∧
      env.enter = env ∧
      (∀ wx, env.exit wx = env.closer wx) ∧
      (∃ w3, env.exit w2 = some w3 ∧
        countPops w3.trace = countPops w2.trace + 1) := by
  refine ⟨_, _, prepare_eq_ok g w request? registry? registry h, rfl,
    fun wx => rfl, ?_⟩
  rcases request? with _ | req <;>
    simp only [prepareResolved, AppEnvironment.exit, prepareCloser,
      apply_request_extensions] <;>
    split <;> split <;>
    simp [requestContextEnd, requestContextBegin, processFinishedCallbacks,
      countPops_append, countPops]

/-- Witness for C4 at a concrete call. -/
theorem appEnvironment_scoped_resource_witness :
    resolveRegistry gW (some reqW) (some regW) = some regW ∧
    (∃ env w2, prepare gW (some reqW) (some regW) wW = Except.ok (env, w2) ∧
      env.enter = env ∧
      (∀ wx, env.exit wx = env.closer wx) ∧
      (∃ w3, env.exit w2 = some w3 ∧
        countPops w3.trace = countPops w2.trace + 1)) :=
  ⟨by decide,
   appEnvironment_scoped_resource gW wW (some reqW) (some regW) regW
     (by decide)⟩

/-- C7: strict push/pop nesting: `prepare` pushes exactly one frame onto
the thread-local stack and its closer pops exactly that frame, restoring
the prior stack; likewise `get_root` pushes exactly one frame and its
closer restores the prior stack.  (The remaining operations —
`AppEnvironment.enter`/`exit` aside from the closer call, `_make_request` —
do not take or return a `World`, so by type they cannot touch the
stack.) -/
theorem threadlocal_strict_push_pop (g : GlobalRegistries) (w : World)
    (request? : Option Request) (registry? : Option Registry)
    (registry : Registry) (app : App)
    (h : resolveRegistry g request? registry? = some registry) :
    (∃ env w2, prepare g request? registry? w = Except.ok (env, w2) ∧
      (∃ fr, w2.stack = fr :: w.stack) ∧
      (∃ w3, env.closer w2 = some w3 ∧ w3.stack = w.stack)) ∧
    (∃ fr2, ((get_root app request? w).2).stack = fr2 :: w.stack ∧
      ∃ w4, (get_root app request? w).1.2 ((get_root app request? w).2) = some w4 ∧
        w4.stack = w.stack) := by
  constructor
  · refine ⟨_, _, prepare_eq_ok g w request? registry? registry h, ?_, ?_⟩
    · rcases request? with _ | req <;>
        simp [prepareResolved, requestContextBegin, apply_request_extensions]
    · rcases request? with _ | req <;>
        simp only [prepareResolved, prepareCloser, apply_request_extensions] <;>
        split <;> split <;>
        simp [requestContextEnd, requestContextBegin, processFinishedCallbacks]
  · rcases request? with _ | req <;>
      simp [get_root, requestContextBegin, requestContextEnd]

/-- Witness for C7 at a concrete call with a nonempty prior stack. -/
theorem threadlocal_strict_push_pop_witness :
    resolveRegistry gW (some reqW) (some regW) = some regW ∧
    ((∃ env w2,
      prepare gW (some reqW) (some regW)
          { stack := [{ request := reqW, registry := none }] } =
        Except.ok (env, w2) ∧
      (∃ fr, w2.stack =
        fr :: ({ stack := [{ request := reqW, registry := none }] } : World).stack) ∧
      (∃ w3, env.closer w2 = some w3 ∧
        w3.stack =
          ({ stack := [{ request := reqW, registry := none }] } : World).stack)) ∧
    (∃ fr2,
      ((get_root { registry := regW, root_factory := RootFactory.custom 2 }
          (some reqW)
          { stack := [{ request := reqW, registry := none }] }).2).stack =
        fr2 :: ({ stack := [{ request := reqW, registry := none }] } : World).stack ∧
      ∃ w4,
        (get_root { registry := regW, root_factory := RootFactory.custom 2 }
            (some reqW)
            { stack := [{ request := reqW, registry := none }] }).1.2
          ((get_root { registry := regW, root_factory := RootFactory.custom 2 }
              (some reqW)
              { stack := [{ request := reqW, registry := none }] }).2) = some w4 ∧
        w4.stack =
          ({ stack := [{ request := reqW, registry := none }] } : World).stack)) :=
  ⟨by decide,
   threadlocal_strict_push_pop gW
     { stack := [{ request := reqW, registry := none }] } (some reqW)
     (some regW) regW { registry := regW, root_factory := RootFactory.custom 2 }
     (by decide)⟩

/-- C8: with no request supplied and a resolvable registry, the request
used is built by the `IRequestFactory` utility (defaulting to the framework
`Request` type) via its `blank` method at path "/", and its `registry`
attribute is set to the resolved registry; the same holds for the request
`get_root` pushes. -/
theorem prepare_default_request_blank (g : GlobalRegistries) (w : World)
    (registry? : Option Registry) (registry : Registry) (app : App)
    (h : resolveRegistry g none registry? = some registry) :
    (∃ env w2, prepare g none registry? w = Except.ok (env, w2) ∧
      env.request.madeBy =
        some (registry.queryUtilityRequestFactory RequestFactory.Request, "/") ∧
      env.request.registry = some (some registry)) ∧
    (∃ fr rest, ((get_root app none w).2).stack = fr :: rest ∧
      fr.request.madeBy =
        some (app.registry.queryUtilityRequestFactory RequestFactory.Request, "/") ∧
      fr.request.registry = some (some app.registry)) := by
  constructor
  · refine ⟨_, _, prepare_eq_ok g w none registry? registry h, ?_, ?_⟩
    · simp only [prepareResolved, apply_request_extensions,
        _make_request_resolved, requestFactoryBlank]
      split <;> simp
    · simp only [prepareResolved, apply_request_extensions,
        _make_request_resolved, requestFactoryBlank]
      split <;> simp
  · simp [get_root, requestContextBegin, _make_request_resolved,
      requestFactoryBlank]

/-- Witness for C8 with a registry carrying a custom request factory. -/
theorem prepare_default_request_blank_witness :
    resolveRegistry gW none
        (some { rid := 3, requestFactoryUtil := some (RequestFactory.custom 4) }) =
      some { rid := 3, requestFactoryUtil := some (RequestFactory.custom 4) } ∧
    ((∃ env w2,
      prepare gW none
          (some { rid := 3, requestFactoryUtil := some (RequestFactory.custom 4) })
          wW =
        Except.ok (env, w2) ∧
      env.request.madeBy =
        some (Registry.queryUtilityRequestFactory
          { rid := 3, requestFactoryUtil := some (RequestFactory.custom 4) }
          RequestFactory.Request, "/") ∧
      env.request.registry =
        some (some { rid := 3, requestFactoryUtil := some (RequestFactory.custom 4) })) ∧
    (∃ fr rest,
      ((get_root
          { registry :=
              { rid := 3, requestFactoryUtil := some (RequestFactory.custom 4) }
            root_factory := RootFactory.DefaultRootFactory }
          none wW).2).stack = fr :: rest ∧
      fr.request.madeBy =
        some (Registry.queryUtilityRequestFactory
          { rid := 3, requestFactoryUtil := some (RequestFactory.custom 4) }
          RequestFactory.Request, "/") ∧
      fr.request.registry =
        some (some { rid := 3, requestFactoryUtil := some (RequestFactory.custom 4) }))) :=
  ⟨by decide,
   prepare_default_request_blank gW wW
     (some { rid := 3, requestFactoryUtil := some (RequestFactory.custom 4) })
     { rid := 3, requestFactoryUtil := some (RequestFactory.custom 4) }
     { registry := { rid := 3, requestFactoryUtil := some (RequestFactory.custom 4) }
       root_factory := RootFactory.DefaultRootFactory }
     (by decide)⟩
